import Mathlib

/-!
# Verification of the Modaics visual-search backend (`backend/app.py`)

This file gives a shallow embedding, in Lean 4, of the attribute-inference
pipeline of the `analyze_image` endpoint and the input validation of the
`search_combined` endpoint of `backend/app.py`, and proves/refutes the frozen
claims about them.

Modelling conventions:
* Python floats are idealised as rationals (`ℚ`); `round(x, 2)` is modelled as
  round-half-even at two decimals (`round2`).
* Python strings are modelled as Lean `String`s; every text operation the code
  uses (`count`, `in`, `strip`, `lower`, `title`, `upper`, `split`, `replace`,
  `startswith`, `join`) is re-implemented by structural recursion over the
  character list so that all definitions evaluate inside the kernel.
* Collaborator calls (GPT-4 vision read, the CLIP model's cosine similarities,
  the pgvector search) are inputs of the model: the pipeline is a pure
  function of their outcomes, exactly as the handler body is.
-/

set_option maxRecDepth 100000

namespace Modaics

/-! ## String primitives (models of the Python string methods used) -/

/-- Whitespace test matching Python's `str.strip` default set. -/
def isWs (c : Char) : Bool :=
  c = ' ' ∨ c = '\t' ∨ c = '\n' ∨ c = '\r' ∨ c = '\x0b' ∨ c = '\x0c'

/-- Model of Python `str.strip()`. -/
def trimStr (s : String) : String :=
  ⟨((s.toList.dropWhile isWs).reverse.dropWhile isWs).reverse⟩

/-- Model of Python `str.lower()` (ASCII range, which is all the code relies on). -/
def lowerStr (s : String) : String :=
  ⟨s.toList.map Char.toLower⟩

/-- Model of Python `str.upper()` (ASCII range). -/
def upperStr (s : String) : String :=
  ⟨s.toList.map Char.toUpper⟩

/-- Helper for `titleCase`: the Bool records whether the previous char was alphabetic. -/
def titleCaseAux : List Char → Bool → List Char
  | [], _ => []
  | c :: rest, prevAlpha =>
      (if c.isAlpha then (if prevAlpha then c.toLower else c.toUpper) else c)
        :: titleCaseAux rest c.isAlpha
/-- Model of Python `str.title()`: first letter of each alphabetic run upper-cased,
the rest lower-cased. -/
def titleCase (s : String) : String :=
  ⟨titleCaseAux s.toList false⟩

/-- `sub` occurs as a contiguous sublist of `s` (model of Python `sub in s`). -/
def isSubList (pat : List Char) : List Char → Bool
  | [] => pat.isEmpty
  | c :: rest => pat.isPrefixOf (c :: rest) || isSubList pat rest

/-- Model of Python `sub in s` for strings. -/
def containsStr (s sub : String) : Bool :=
  isSubList sub.toList s.toList

/-- Greedy left-to-right non-overlapping occurrence count; the `skip` counter
carries how many characters of a just-matched occurrence remain to be skipped. -/
def countOccAux (sub : List Char) : List Char → Nat → Nat
  | [], _ => 0
  | c :: rest, skip =>
      if skip = 0 then
        if sub.isPrefixOf (c :: rest) then 1 + countOccAux sub rest (sub.length - 1)
        else countOccAux sub rest 0
      else countOccAux sub rest (skip - 1)

/-- Model of Python `s.count(sub)` for nonempty `sub` (the code never counts
the empty string). -/
def countOcc (s sub : String) : Nat :=
  if sub.toList = [] then 0 else countOccAux sub.toList s.toList 0

/-- Helper for `replaceStr`, same skip discipline as `countOccAux`. -/
def replaceAux (sub repl : List Char) : List Char → Nat → List Char
  | [], _ => []
  | c :: rest, skip =>
      if skip = 0 then
        if sub.isPrefixOf (c :: rest) then repl ++ replaceAux sub repl rest (sub.length - 1)
        else c :: replaceAux sub repl rest 0
      else replaceAux sub repl rest (skip - 1)

/-- Model of Python `s.replace(sub, repl)` for nonempty `sub`. -/
def replaceStr (s sub repl : String) : String :=
  if sub.toList = [] then s else ⟨replaceAux sub.toList repl.toList s.toList 0⟩

/-- Model of Python `s.startswith(pre)`. -/
def startsWithStr (s pre : String) : Bool :=
  pre.toList.isPrefixOf s.toList

/-- Split on the newline character, keeping empty segments
(model of Python `s.split('\n')`). -/
def splitLinesAux : List Char → List Char → List String
  | [], acc => [⟨acc.reverse⟩]
  | c :: rest, acc =>
      if c = '\n' then ⟨acc.reverse⟩ :: splitLinesAux rest []
      else splitLinesAux rest (c :: acc)

/-- Model of Python `s.split('\n')`. -/
def splitLines (s : String) : List String :=
  splitLinesAux s.toList []

/-- Model of Python `sep.join(parts)`. -/
def joinSep (sep : String) : List String → String
  | [] => ""
  | [x] => x
  | x :: xs => x ++ sep ++ joinSep sep xs

/-! ## Rounding (model of Python `round(x, 2)`) -/

/-- Round-half-even to the nearest integer, as Python's `round` does. -/
def rhe (q : ℚ) : ℤ :=
  if q - (⌊q⌋ : ℚ) < 1/2 then ⌊q⌋
  else if q - (⌊q⌋ : ℚ) > 1/2 then ⌊q⌋ + 1
  else if ⌊q⌋ % 2 = 0 then ⌊q⌋ else ⌊q⌋ + 1

/-- Model of Python `round(x, 2)`. -/
def round2 (q : ℚ) : ℚ :=
  (rhe (100 * q) : ℚ) / 100

/-! ## Static label taxonomies and vocabularies (verbatim from `analyze_image`) -/

/-- `category_names` list of `analyze_image` (display names of the 33
zero-shot category labels, in order). -/
def category_names : List String :=
  ["bomber_jacket", "parka", "denim_jacket", "blazer", "leather_jacket",
   "windbreaker", "hoodie", "cardigan", "crewneck_sweater", "vneck_sweater",
   "turtleneck", "fleece", "tshirt", "shirt", "polo", "tank",
   "blouse", "dress", "jeans", "chinos", "cargo_pants", "joggers",
   "shorts", "skirt", "running_shoes", "basketball_sneakers",
   "casual_sneakers", "boots", "sandals", "backpack", "tote_bag",
   "crossbody_bag", "hat"]

/-- The `category_mapping` dict of `analyze_image`, as an association list in
source order; lookup defaults to `"tops"` as in `dict.get(key, "tops")`. -/
def category_mapping_table : List (String × String) :=
  [("bomber_jacket", "outerwear"), ("parka", "outerwear"),
   ("denim_jacket", "outerwear"), ("blazer", "outerwear"),
   ("leather_jacket", "outerwear"), ("windbreaker", "outerwear"),
   ("hoodie", "outerwear"), ("cardigan", "outerwear"),
   ("crewneck_sweater", "outerwear"), ("vneck_sweater", "outerwear"),
   ("turtleneck", "outerwear"), ("fleece", "outerwear"),
   ("tshirt", "tops"), ("shirt", "tops"), ("polo", "tops"), ("tank", "tops"),
   ("blouse", "tops"), ("dress", "dresses"), ("jeans", "bottoms"),
   ("chinos", "bottoms"), ("cargo_pants", "bottoms"), ("joggers", "bottoms"),
   ("shorts", "bottoms"), ("skirt", "bottoms"), ("running_shoes", "shoes"),
   ("basketball_sneakers", "shoes"), ("casual_sneakers", "shoes"),
   ("boots", "shoes"), ("sandals", "shoes"), ("backpack", "bags"),
   ("tote_bag", "bags"), ("crossbody_bag", "bags"), ("hat", "accessories")]

/-- `category_mapping.get(detected_category_type, "tops")`. -/
def categoryMapping (k : String) : String :=
  match category_mapping_table.find? (fun p => p.1 = k) with
  | some p => p.2
  | none => "tops"

/-- `color_names` list of `analyze_image` (13 entries, in order). -/
def color_names : List String :=
  ["Black", "White", "Gray", "Red", "Blue", "Navy",
   "Green", "Yellow", "Orange", "Pink", "Purple",
   "Brown", "Multicolor"]

/-- `pattern_names` list of `analyze_image` (12 entries, in order). -/
def pattern_names : List String :=
  ["Solid", "Striped", "Graphic", "Floral", "Plaid",
   "Camo", "Tie-Dye", "Polka Dot", "Animal Print",
   "Abstract", "Denim Wash", "Embroidered"]

/-- `distinctive_brand_names` list of `analyze_image` (14 entries, the last
being the empty string for the "no clear brand" null label). -/
def distinctive_brand_names : List String :=
  ["Supreme", "Nike", "Adidas", "Gucci", "Louis Vuitton",
   "Polo Ralph Lauren", "Tommy Hilfiger", "Champion",
   "Carhartt", "Patagonia", "The North Face",
   "Vans", "Converse", ""]

/-- The `brand_keywords` dict of `analyze_image`, as an association list in
source insertion order (the source file contains the mojibake spellings
"Herm√®s" and "St√ºssy"; they are reproduced here). -/
def brand_keywords : List (String × String) :=
  [("prada", "Prada"), ("gucci", "Gucci"), ("louis vuitton", "Louis Vuitton"),
   ("lv", "Louis Vuitton"),
   ("chanel", "Chanel"), ("dior", "Dior"), ("balenciaga", "Balenciaga"),
   ("versace", "Versace"),
   ("fendi", "Fendi"), ("burberry", "Burberry"),
   ("saint laurent", "Saint Laurent"), ("ysl", "YSL"),
   ("hermes", "Herm√®s"), ("herm√®s", "Herm√®s"),
   ("givenchy", "Givenchy"), ("valentino", "Valentino"),
   ("supreme", "Supreme"), ("palace", "Palace"), ("bape", "BAPE"),
   ("a bathing ape", "BAPE"),
   ("stussy", "St√ºssy"), ("st√ºssy", "St√ºssy"),
   ("off-white", "Off-White"), ("off white", "Off-White"),
   ("kith", "Kith"), ("anti social social club", "Anti Social Social Club"),
   ("assc", "ASSC"),
   ("nike", "Nike"), ("adidas", "Adidas"), ("puma", "Puma"), ("reebok", "Reebok"),
   ("new balance", "New Balance"), ("under armour", "Under Armour"),
   ("asics", "ASICS"),
   ("vans", "Vans"), ("converse", "Converse"), ("champion", "Champion"),
   ("fila", "Fila"),
   ("ami paris", "AMI Paris"), ("ami", "AMI Paris"),
   ("acne studios", "Acne Studios"), ("acne", "Acne Studios"),
   ("a.p.c", "A.P.C."), ("apc", "A.P.C."), ("stone island", "Stone Island"),
   ("cp company", "C.P. Company"), ("c.p. company", "C.P. Company"),
   ("carhartt", "Carhartt"), ("dickies", "Dickies"),
   ("carhartt wip", "Carhartt WIP"),
   ("polo ralph lauren", "Polo Ralph Lauren"), ("ralph lauren", "Ralph Lauren"),
   ("polo", "Polo Ralph Lauren"),
   ("tommy hilfiger", "Tommy Hilfiger"), ("tommy", "Tommy Hilfiger"),
   ("lacoste", "Lacoste"),
   ("patagonia", "Patagonia"), ("north face", "The North Face"),
   ("the north face", "The North Face"),
   ("columbia", "Columbia"), ("arcteryx", "Arc\x27teryx"),
   ("arc\x27teryx", "Arc\x27teryx"),
   ("zara", "Zara"), ("h&m", "H&M"), ("hm", "H&M"), ("uniqlo", "Uniqlo"),
   ("gap", "Gap"),
   ("old navy", "Old Navy"), ("forever 21", "Forever 21"), ("primark", "Primark"),
   ("levi\x27s", "Levi\x27s"), ("levis", "Levi\x27s"), ("levi", "Levi\x27s"),
   ("wrangler", "Wrangler"), ("lee", "Lee"),
   ("diesel", "Diesel"), ("true religion", "True Religion"), ("g-star", "G-Star")]

/-- The `text_brands` vocabulary of `analyze_image`. The source writes it as a
Python set literal, whose iteration order is unspecified; it is modelled as a
list in the literal's order (no claim depends on the order within count ties). -/
def text_brands : List String :=
  ["prada", "balenciaga", "versace", "fendi", "burberry",
   "saint laurent", "ysl", "dior", "chanel", "hermes",
   "supreme", "palace", "bape", "stussy", "off-white",
   "nike", "adidas", "puma", "reebok", "new balance",
   "under armour", "asics",
   "ami", "ami paris", "acne studios", "apc", "a.p.c.",
   "stone island", "cp company", "c.p. company",
   "polo", "polo ralph lauren", "ralph lauren", "tommy hilfiger",
   "lacoste", "carhartt", "dickies", "champion",
   "patagonia", "north face", "columbia",
   "vans", "converse",
   "zara", "h&m", "uniqlo", "gap",
   "levi\x27s", "levis", "wrangler", "lee"]

/-- The `material_keywords` dict of `analyze_image`, in source order. -/
def material_keywords : List (String × List String) :=
  [("cotton", ["cotton", "jersey"]),
   ("denim", ["denim", "jean"]),
   ("leather", ["leather", "suede"]),
   ("wool", ["wool", "cashmere", "merino"]),
   ("silk", ["silk", "satin"]),
   ("polyester", ["polyester", "poly"]),
   ("linen", ["linen"]),
   ("nylon", ["nylon"]),
   ("canvas", ["canvas"])]

/-- The `size_keywords` list of `analyze_image`. -/
def size_keywords : List String :=
  ["xs", "s", "m", "l", "xl", "xxl"]

/-! ## Numeric list helpers (models of `argmax`, `argsort`, `statistics.*`) -/

/-- Helper for `argmaxIdx`: scan keeping the first index of the maximum. -/
def argmaxAux : List ℚ → Nat → Nat → ℚ → Nat
  | [], _, best, _ => best
  | x :: xs, i, best, bv =>
      if x > bv then argmaxAux xs (i + 1) i x else argmaxAux xs (i + 1) best bv

/-- Model of `tensor.argmax()`: index of the first occurrence of the maximum
(0 on the empty list, which the code never hits). -/
def argmaxIdx : List ℚ → Nat
  | [] => 0
  | x :: xs => argmaxAux xs 1 0 x

/-- Insert into a descending-sorted list, after all entries with value ≥ the
new one (so the fold below is stable on ties). -/
def insertDesc (p : Nat × ℚ) : List (Nat × ℚ) → List (Nat × ℚ)
  | [] => [p]
  | q :: qs => if q.2 ≥ p.2 then q :: insertDesc p qs else p :: q :: qs

/-- Model of `tensor.argsort(descending=True)` on an enumerated list:
indices paired with values, sorted by value descending, stable. -/
def sortDesc (l : List (Nat × ℚ)) : List (Nat × ℚ) :=
  l.foldl (fun acc p => insertDesc p acc) []

/-- Model of Python `max(keys, key=counts.get)`: the first key attaining the
maximal count (Python's `max` returns the first maximal element). -/
def firstMaxKey : List (String × Nat) → String
  | [] => ""
  | (s, c) :: rest =>
      (rest.foldl (fun acc p => if p.2 > acc.2 then p else acc) (s, c)).1

/-- Model of `statistics.mean`. -/
def meanQ (l : List ℚ) : ℚ :=
  l.sum / (l.length : ℚ)

/-- Model of `statistics.stdev` squared: the sample variance with Bessel's
correction (denominator `n - 1`). The filter below compares squares, so the
square root itself is never needed. -/
def sampleVar (l : List ℚ) : ℚ :=
  ((l.map (fun p => (p - meanQ l) ^ 2)).sum) / ((l.length : ℚ) - 1)

/-- Minimum of a list of rationals (0 on the empty list). -/
def minQ : List ℚ → ℚ
  | [] => 0
  | x :: xs => xs.foldl min x

/-- Maximum of a list of rationals (0 on the empty list). -/
def maxQ : List ℚ → ℚ
  | [] => 0
  | x :: xs => xs.foldl max x

/-! ## GPT-4 vision read: outcome parsing (lines 303–395 of `app.py`) -/

/-- One step of the response-parsing loop: a line starting with `BRAND:`
updates the brand field (unless the value is a sentinel), a line starting with
`COLOR:` the color field. -/
def parseGptLine (acc : String × String) (line : String) : String × String :=
  let l := trimStr line
  if startsWithStr l "BRAND:" then
    let b := lowerStr (trimStr (replaceStr l "BRAND:" ""))
    if b = "unknown" ∨ b = "none" ∨ b = "n/a" ∨ b = "" then acc else (b, acc.2)
  else if startsWithStr l "COLOR:" then
    let c := trimStr (replaceStr l "COLOR:" "")
    if c = "unknown" ∨ c = "none" ∨ c = "n/a" ∨ c = "" then acc else (acc.1, c)
  else acc

/-- Parse the raw GPT-4 response into
`(detected_text_on_image, gpt4_detected_color)`. -/
def parseGptResponse (resp : String) : String × String :=
  (splitLines (trimStr resp)).foldl parseGptLine ("", "")

/-- The GPT-4 vision read with its enclosing `try/except`: any error from the
collaborator is caught and both signals are left empty (fail-open). -/
def parseGpt : Except String String → String × String
  | Except.error _ => ("", "")
  | Except.ok resp => parseGptResponse resp

/-! ## Brand resolution (lines 611–745 of `app.py`) -/

/-- Step 1 of brand detection: match the GPT-detected text against the
`brand_keywords` alias table (`keyword == detected_lower or keyword in
detected_lower or detected_lower in keyword`, first hit in insertion order
wins); with no table hit, text longer than 2 characters is title-cased and
used as-is, otherwise the signal stays empty. -/
def gpt4BrandOf (detectedText : String) : String :=
  if detectedText = "" then ""
  else
    let detectedLower := trimStr (lowerStr detectedText)
    match brand_keywords.find?
        (fun p => p.1 = detectedLower ∨ containsStr detectedLower p.1 = true ∨
          containsStr p.1 detectedLower = true) with
    | some p => p.2
    | none => if detectedText.length > 2 then titleCase detectedText else ""

/-- Step 3 of brand detection: scan the `text_brands` vocabulary, keeping the
brand with the strictly larger occurrence count in `all_text` (first maximal
brand wins ties), starting from `("", 0)`. -/
def textMine (allText : String) : String × Nat :=
  text_brands.foldl
    (fun acc b =>
      let c := countOcc allText b
      if c > acc.2 then (b, c) else acc)
    ("", 0)

/-- The maximal occurrence count over the `text_brands` vocabulary. -/
def maxBrandCount (allText : String) : Nat :=
  text_brands.foldl (fun m b => max m (countOcc allText b)) 0

/-- The display fix-ups applied to a text-mined brand:
`text_brand.title().replace("Ami Paris", "AMI Paris").replace("Ysl",
"YSL").replace("Apc", "A.P.C.")`. -/
def brandDisplay (b : String) : String :=
  replaceStr (replaceStr (replaceStr (titleCase b) "Ami Paris" "AMI Paris")
    "Ysl" "YSL") "Apc" "A.P.C."

/-- Step 4 of brand detection: the strict-priority decision
(GPT-4 direct read > text mining gated at ≥ 3 occurrences > visual zero-shot
gated at similarity > 0.40 with a non-empty label), else no guess. -/
def decideBrand (gpt4Brand allText visualBrand : String) (visualConf : ℚ) :
    String × ℚ :=
  if gpt4Brand ≠ "" then (gpt4Brand, 95/100)
  else if 3 ≤ (textMine allText).2 then
    (brandDisplay (textMine allText).1,
      min (85/100) (6/10 + ((textMine allText).2 : ℚ) * (8/100)))
  else if visualConf > 4/10 ∧ visualBrand ≠ "" then (visualBrand, visualConf)
  else ("", 0)

/-! ## Color selection (lines 509–535 of `app.py`) -/

/-- The color list and confidence list of the analysis: when the GPT-4 color
signal is present it overrides with that single color title-cased at
confidence 0.95; otherwise the zero-shot rule keeps the top color
unconditionally and ranks 2–3 only within 0.02 of the top and above 0.24. -/
def selectColors (gptColor : String) (colorSims : List ℚ) :
    List String × List ℚ :=
  if gptColor ≠ "" then ([titleCase gptColor], [95/100])
  else
    match (sortDesc colorSims.enum).take 3 with
    | [] => ([], [])
    | top :: rest =>
        rest.foldl
          (fun acc p =>
            if top.2 - p.2 < 2/100 ∧ p.2 > 24/100 then
              (acc.1 ++ [color_names.getD p.1 ""], acc.2 ++ [p.2])
            else acc)
          ([color_names.getD top.1 ""], [top.2])

/-! ## Neighborhood aggregation (lines 784–815 of `app.py`) -/

/-- Size estimation: occurrence counts of each size token over `all_text`; the
`if size_counts` guard is kept although the dict built from the six keywords is
always non-empty, so the `"M"` default is unreachable. -/
def sizeEstimate (allText : String) : String :=
  let sizeCounts := size_keywords.map (fun s => (s, countOcc allText s))
  if sizeCounts ≠ [] then upperStr (firstMaxKey sizeCounts) else "M"

/-- Condition banding on the top-1 neighbor distance (strict `<` boundaries). -/
def conditionFromDistance (d : ℚ) : String :=
  if d < 3/10 then "excellent"
  else if d < 5/10 then "good"
  else "fair"

/-- The 3-standard-deviation outlier filter on the price samples
(`abs(p - mean) < 3 * stdev`, stated on squares to stay in ℚ). -/
def priceFilter (prices : List ℚ) : List ℚ :=
  prices.filter (fun p => (p - meanQ prices) ^ 2 < 9 * sampleVar prices)

/-- Price estimation: none without samples; simple mean (rounded) for ≤ 3
samples; outlier-trimmed mean (rounded) for > 3 samples, falling back to the
un-trimmed (and unrounded) mean when the filter empties the list. -/
def estimatedPrice (prices : List ℚ) : Option ℚ :=
  if prices = [] then none
  else if 3 < prices.length then
    if priceFilter prices ≠ [] then some (round2 (meanQ (priceFilter prices)))
    else some (meanQ prices)
  else some (round2 (meanQ prices))

/-- The price samples actually retained by the aggregation: all of them in the
≤ 3-sample branch, the outlier-filtered ones in the > 3-sample branch. -/
def retainedPrices (prices : List ℚ) : List ℚ :=
  if 3 < prices.length then priceFilter prices else prices

/-- Material detection: a material is reported when any of its keywords occurs
in `all_text`, in dictionary order, title-cased. -/
def detectMaterials (allText : String) : List String :=
  (material_keywords.filter (fun mk => mk.2.any (fun kw => containsStr allText kw))).map
    (fun mk => titleCase mk.1)

/-! ## Data model and the `analyze_image` pipeline -/

/-- A row returned by `search_similar`: the projection of a catalog item that
`analyze_image` reads (`title`, `description`, `price`, `distance`, each
possibly missing/null). -/
structure NeighborRow where
  title : Option String
  description : Option String
  price : Option ℚ
  distance : Option ℚ

/-- The collaborator outcomes `analyze_image` consumes after the image is
decoded: the GPT-4 vision read (error or raw response text), the four cosine
similarity vectors against the fixed label sets, and the vector-index rows. -/
structure AnalyzeInputs where
  gptOutcome : Except String String
  categorySims : List ℚ
  colorSims : List ℚ
  patternSims : List ℚ
  brandSims : List ℚ
  results : List NeighborRow

/-- The `AnalysisResult` dictionary assembled by `analyze_image`
(`confidence_scores` flattened into the `conf_*` fields). -/
structure Analysis where
  detected_item : String
  likely_brand : String
  category : String
  specific_category : String
  estimated_size : String
  estimated_condition : String
  description : String
  colors : List String
  pattern : String
  materials : List String
  estimated_price : Option ℚ
  confidence : ℚ
  conf_category : ℚ
  conf_colors : List ℚ
  conf_pattern : ℚ
  conf_brand : ℚ

/-- The attribute-inference pipeline of `analyze_image` (lines 283–864 of
`app.py`), as a pure function of the collaborator outcomes. The first branch
is the empty-neighbor-set fallback (lines 569–597); the second is the main
path. -/
def analyzeCore (inp : AnalyzeInputs) : Analysis :=
  let sig := parseGpt inp.gptOutcome
  let detectedText := sig.1
  let gptColor := sig.2
  let bestCatIdx := argmaxIdx inp.categorySims
  let detectedCategoryType := category_names.getD bestCatIdx ""
  let categoryConfidence := inp.categorySims.getD bestCatIdx 0
  let category := categoryMapping detectedCategoryType
  let colorSel := selectColors gptColor inp.colorSims
  let detectedColors := colorSel.1
  let colorConfidences := colorSel.2
  let bestPatIdx := argmaxIdx inp.patternSims
  let detectedPattern := pattern_names.getD bestPatIdx ""
  let patternConfidence := inp.patternSims.getD bestPatIdx 0
  match inp.results with
  | [] =>
      let nameParts :=
        [if detectedColors ≠ [] then detectedColors.headD "" else ""] ++
        (if detectedPattern ≠ "" ∧ lowerStr detectedPattern ≠ "solid" then
          [detectedPattern] else []) ++
        [titleCase (replaceStr detectedCategoryType "_" " ")]
      let detectedItemName := joinSep " " (nameParts.filter (fun p => p ≠ ""))
      { detected_item := detectedItemName
        likely_brand := ""
        category := category
        specific_category := detectedCategoryType
        estimated_size := "M"
        estimated_condition := "excellent"
        description := detectedItemName ++ " in excellent condition"
        colors := detectedColors.take 3
        pattern := detectedPattern
        materials := []
        estimated_price := none
        confidence := round2 categoryConfidence
        conf_category := round2 categoryConfidence
        conf_colors := colorConfidences.map round2
        conf_pattern := round2 patternConfidence
        conf_brand := 0 }
  | top :: _ =>
      let titles :=
        (inp.results.filter (fun r => r.title.getD "" ≠ "")).map
          (fun r => r.title.getD "")
      let descriptions :=
        (inp.results.filter (fun r => r.description.getD "" ≠ "")).map
          (fun r => r.description.getD "")
      let prices :=
        (inp.results.filter (fun r => r.price.isSome)).map (fun r => r.price.getD 0)
      let allText0 := lowerStr (joinSep " " (titles ++ descriptions))
      let allText :=
        if detectedText ≠ "" then detectedText ++ " " ++ allText0 else allText0
      let gpt4Brand := gpt4BrandOf detectedText
      let bestBrandIdx := argmaxIdx inp.brandSims
      let visualBrand := distinctive_brand_names.getD bestBrandIdx ""
      let visualBrandConfidence := inp.brandSims.getD bestBrandIdx 0
      let brandDec := decideBrand gpt4Brand allText visualBrand visualBrandConfidence
      let detectedBrand := brandDec.1
      let brandConfidence := brandDec.2
      let detectedMaterials := detectMaterials allText
      let nameParts :=
        (if detectedColors ≠ [] then [detectedColors.headD ""] else []) ++
        (if detectedPattern ≠ "" ∧ lowerStr detectedPattern ≠ "solid" then
          [detectedPattern] else []) ++
        [titleCase (replaceStr detectedCategoryType "_" " ")]
      let detectedItem := if nameParts ≠ [] then joinSep " " nameParts else "Fashion Item"
      let estimatedSize := sizeEstimate allText
      let distance := top.distance.getD 1
      let estimatedCondition := conditionFromDistance distance
      let price := estimatedPrice prices
      let descriptionParts :=
        (if detectedBrand ≠ "" then [detectedBrand] else []) ++
        [detectedItem] ++
        (if estimatedSize ≠ "" then ["Size " ++ estimatedSize] else []) ++
        (if estimatedCondition ≠ "" then [titleCase estimatedCondition] else [])
      let description := joinSep ", " descriptionParts ++ "."
      let overallConfidence := max 0 (min 1 (1 - distance))
      { detected_item := detectedItem
        likely_brand := detectedBrand
        category := category
        specific_category := detectedCategoryType
        estimated_size := estimatedSize
        estimated_condition := estimatedCondition
        description := description
        colors := detectedColors.take 3
        pattern := detectedPattern
        materials := detectedMaterials.take 3
        estimated_price := price
        confidence := round2 overallConfidence
        conf_category := round2 categoryConfidence
        conf_colors := colorConfidences.map round2
        conf_pattern := round2 patternConfidence
        conf_brand := round2 brandConfidence }

/-- The `analyze_image` request handler boundary (lines 273–281): a missing
image field or an undecodable base64 payload is rejected with status 400
before the pipeline runs; otherwise the pipeline result is returned. -/
def analyzeHandler (imageB64 : String) (decodeOk : Bool) (inp : AnalyzeInputs) :
    Except (Nat × String) Analysis :=
  if imageB64 = "" then Except.error (400, "Image is required")
  else if decodeOk = false then Except.error (400, "Invalid base64 image data")
  else Except.ok (analyzeCore inp)

/-- The `search_combined` handler (lines 187–253): validation of the two
optional inputs, then the embedding provider, then the vector index. The
provider and the index are parameters, so theorems quantifying over them
express that rejection happens before either is consulted. -/
def searchCombinedM (embed : Bool → Option String → Except String (List ℚ))
    (searchIdx : List ℚ → Except String (List NeighborRow))
    (query imageB64 : String) (decodeOk : Bool) :
    Except (Nat × String) (List NeighborRow) :=
  let q := trimStr query
  if q = "" ∧ imageB64 = "" then
    Except.error (400, "At least one of \x27query\x27 or \x27image_base64\x27 is required")
  else if imageB64 ≠ "" ∧ decodeOk = false then
    Except.error (400, "Invalid base64 image data")
  else
    match embed (imageB64 ≠ "") (if q ≠ "" then some q else none) with
    | Except.error e => Except.error (500, "Embedding error: " ++ e)
    | Except.ok emb =>
        match searchIdx emb with
        | Except.error e => Except.error (500, "Search error: " ++ e)
        | Except.ok rows => Except.ok rows

/-! ## Shared lemmas -/

/-- Python's `round` moves a value by at most one half. -/
theorem rhe_bounds (q : ℚ) : q - 1/2 ≤ (rhe q : ℚ) ∧ (rhe q : ℚ) ≤ q + 1/2 := by
  have hfl : (⌊q⌋ : ℚ) ≤ q := Int.floor_le q
  have hfu : q < (⌊q⌋ : ℚ) + 1 := Int.lt_floor_add_one q
  unfold rhe
  by_cases h1 : q - (⌊q⌋ : ℚ) < 1/2
  · rw [if_pos h1]
    constructor <;> linarith
  · rw [if_neg h1]
    by_cases h2 : q - (⌊q⌋ : ℚ) > 1/2
    · rw [if_pos h2]; push_cast; constructor <;> linarith
    · rw [if_neg h2]
      have h3 : q - (⌊q⌋ : ℚ) = 1/2 := le_antisymm (not_lt.mp h2) (not_lt.mp h1)
      by_cases h4 : ⌊q⌋ % 2 = 0
      · rw [if_pos h4]; constructor <;> linarith
      · rw [if_neg h4]; push_cast; constructor <;> linarith

/-- Rounding at two decimals moves a value by at most 1/200. -/
theorem round2_bounds (q : ℚ) : q - 1/200 ≤ round2 q ∧ round2 q ≤ q + 1/200 := by
  obtain ⟨h1, h2⟩ := rhe_bounds (100 * q)
  unfold round2
  constructor
  · rw [le_div_iff₀ (by norm_num : (0:ℚ) < 100)]
    linarith
  · rw [div_le_iff₀ (by norm_num : (0:ℚ) < 100)]
    linarith

/-- A `foldl max` is an upper bound of its seed and of every member. -/
theorem foldl_max_bounds (l : List ℚ) : ∀ a : ℚ,
    a ≤ l.foldl max a ∧ ∀ y ∈ l, y ≤ l.foldl max a := by
  induction l with
  | nil => intro a; simp
  | cons x xs ih =>
      intro a
      simp only [List.foldl_cons]
      refine ⟨le_trans (le_max_left a x) (ih (max a x)).1, ?_⟩
      intro y hy
      rcases List.mem_cons.mp hy with h | h
      · rw [h]; exact le_trans (le_max_right a x) (ih (max a x)).1
      · exact (ih (max a x)).2 y h

/-- A `foldl min` is a lower bound of its seed and of every member. -/
theorem foldl_min_bounds (l : List ℚ) : ∀ a : ℚ,
    l.foldl min a ≤ a ∧ ∀ y ∈ l, l.foldl min a ≤ y := by
  induction l with
  | nil => intro a; simp
  | cons x xs ih =>
      intro a
      simp only [List.foldl_cons]
      refine ⟨le_trans (ih (min a x)).1 (min_le_left a x), ?_⟩
      intro y hy
      rcases List.mem_cons.mp hy with h | h
      · rw [h]; exact le_trans (ih (min a x)).1 (min_le_right a x)
      · exact (ih (min a x)).2 y h

/-- Every member of a list is at most its `maxQ`. -/
theorem mem_le_maxQ {l : List ℚ} {y : ℚ} (hy : y ∈ l) : y ≤ maxQ l := by
  cases l with
  | nil => cases hy
  | cons x xs =>
      rcases List.mem_cons.mp hy with h | h
      · rw [h]; exact (foldl_max_bounds xs x).1
      · exact (foldl_max_bounds xs x).2 y h

/-- Every member of a list is at least its `minQ`. -/
theorem minQ_le_mem {l : List ℚ} {y : ℚ} (hy : y ∈ l) : minQ l ≤ y := by
  cases l with
  | nil => cases hy
  | cons x xs =>
      rcases List.mem_cons.mp hy with h | h
      · rw [h]; exact (foldl_min_bounds xs x).1
      · exact (foldl_min_bounds xs x).2 y h

/-- The mean of a non-empty list lies between its minimum and maximum. -/
theorem meanQ_mem_range {l : List ℚ} (h : l ≠ []) :
    minQ l ≤ meanQ l ∧ meanQ l ≤ maxQ l := by
  have hpos : 0 < (l.length : ℚ) := by
    exact_mod_cast List.length_pos.mpr h
  have hup : l.sum ≤ (l.length : ℚ) * maxQ l := by
    have := List.sum_le_card_nsmul l (maxQ l) (fun x hx => mem_le_maxQ hx)
    rwa [nsmul_eq_mul] at this
  have hlo : (l.length : ℚ) * minQ l ≤ l.sum := by
    have := List.card_nsmul_le_sum l (minQ l) (fun x hx => minQ_le_mem hx)
    rwa [nsmul_eq_mul] at this
  constructor
  · rw [meanQ, le_div_iff₀ hpos]; linarith
  · rw [meanQ, div_le_iff₀ hpos]; linarith

/-- The scanning fold of `textMine` computes the maximal occurrence count. -/
theorem textMine_snd_eq_max (t : String) :
    (textMine t).2 = maxBrandCount t := by
  have key : ∀ (l : List String) (acc : String × Nat),
      (l.foldl (fun acc b =>
        let c := countOcc t b
        if c > acc.2 then (b, c) else acc) acc).2
        = l.foldl (fun m b => max m (countOcc t b)) acc.2 := by
    intro l
    induction l with
    | nil => intro acc; rfl
    | cons x xs ih =>
        intro acc
        simp only [List.foldl_cons]
        rw [ih]
        congr 1
        by_cases h : countOcc t x > acc.2
        · simp only [h, if_pos h]
          exact (Nat.max_eq_right (Nat.le_of_lt h)).symm
        · simp only [if_neg h]
          exact (Nat.max_eq_left (Nat.le_of_not_lt h)).symm
  exact key text_brands ("", 0)

/-- When `textMine` reports a positive count, its brand really has that
occurrence count. -/
theorem textMine_fst_count (t : String) :
    (textMine t).2 > 0 → countOcc t (textMine t).1 = (textMine t).2 := by
  have key : ∀ (l : List String) (acc : String × Nat),
      (acc.2 = 0 ∨ countOcc t acc.1 = acc.2) →
      ((l.foldl (fun acc b =>
          let c := countOcc t b
          if c > acc.2 then (b, c) else acc) acc).2 = 0 ∨
        countOcc t (l.foldl (fun acc b =>
          let c := countOcc t b
          if c > acc.2 then (b, c) else acc) acc).1
          = (l.foldl (fun acc b =>
          let c := countOcc t b
          if c > acc.2 then (b, c) else acc) acc).2) := by
    intro l
    induction l with
    | nil => intro acc h; exact h
    | cons x xs ih =>
        intro acc h
        simp only [List.foldl_cons]
        apply ih
        by_cases hx : countOcc t x > acc.2
        · simp [if_pos hx]
        · simpa [if_neg hx] using h
  intro hpos
  rcases key text_brands ("", 0) (Or.inl rfl) with h0 | hc
  · unfold textMine at hpos
    omega
  · exact hc

/-! ## Claim C1 — brand resolution priority -/

/-- **C1** (corrected). Brand resolution follows strict priority over three
signals. The first two clauses characterise the text-mining scan: its count is
the maximal occurrence count over the brand vocabulary, and when positive its
brand attains that count. Then: a non-empty direct-read brand wins with
confidence fixed at 0.95; otherwise a text-mined majority of at least 3
occurrences wins with confidence `min(0.85, 0.6 + 0.08·count)`; otherwise the
visual zero-shot brand wins with its similarity as confidence when the
similarity exceeds 0.40 **and the selected visual label is non-empty** (the
clause the original claim omits: when the argmax lands on the "no clear brand"
null label the code does not report its similarity); otherwise the empty brand
with confidence 0.0. -/
theorem brand_resolution_priority (gpt4Brand allText visualBrand : String)
    (visualConf : ℚ) :
    (textMine allText).2 = maxBrandCount allText ∧
    ((textMine allText).2 > 0 →
      countOcc allText (textMine allText).1 = (textMine allText).2) ∧
    (gpt4Brand ≠ "" →
      decideBrand gpt4Brand allText visualBrand visualConf = (gpt4Brand, 95/100)) ∧
    (gpt4Brand = "" → 3 ≤ (textMine allText).2 →
      decideBrand gpt4Brand allText visualBrand visualConf =
        (brandDisplay (textMine allText).1,
          min (85/100) (6/10 + ((textMine allText).2 : ℚ) * (8/100)))) ∧
    (gpt4Brand = "" → (textMine allText).2 < 3 → visualConf > 4/10 →
      visualBrand ≠ "" →
      decideBrand gpt4Brand allText visualBrand visualConf =
        (visualBrand, visualConf)) ∧
    (gpt4Brand = "" → (textMine allText).2 < 3 →
      ¬(visualConf > 4/10 ∧ visualBrand ≠ "") →
      decideBrand gpt4Brand allText visualBrand visualConf = ("", 0)) := by
  refine ⟨textMine_snd_eq_max allText, textMine_fst_count allText, ?_, ?_, ?_, ?_⟩
  · intro h
    rw [decideBrand, if_pos h]
  · intro hg h3
    rw [decideBrand, if_neg (by simp [hg]), if_pos h3]
  · intro hg h3 hv hb
    rw [decideBrand, if_neg (by simp [hg]), if_neg (by omega), if_pos ⟨hv, hb⟩]
  · intro hg h3 hnv
    rw [decideBrand, if_neg (by simp [hg]), if_neg (by omega), if_neg hnv]

/-- **C1** counterexample to the claim as stated: with no direct read, no
text-mined brand, and the visual argmax on the "no clear brand" null label at
similarity 0.5 > 0.40, the code outputs confidence 0.0, not the similarity
0.5 that the claim's third clause promises. -/
theorem brand_resolution_null_visual_counterexample :
    textMine "" = ("", 0) ∧
    ((1 : ℚ)/2 > 4/10) ∧
    decideBrand "" "" "" (1/2) = ("", 0) ∧
    decideBrand "" "" "" (1/2) ≠ ("", 1/2) := by
  have htm : textMine "" = ("", 0) := by decide
  have hdec : decideBrand "" "" "" (1/2) = ("", 0) := by
    rw [decideBrand, if_neg (by simp), if_neg (by simp [htm]), if_neg (by simp)]
  refine ⟨htm, by norm_num, hdec, ?_⟩
  rw [hdec]
  norm_num [Prod.ext_iff]

/-- Witness for `brand_resolution_priority` at a concrete input: a direct-read
brand "Nike" wins with confidence 0.95. -/
theorem brand_resolution_priority_witness :
    decideBrand "Nike" "" "" 0 = ("Nike", 95/100) :=
  (brand_resolution_priority "Nike" "" "" 0).2.2.1 (by decide)

/-! ## Claim C2 — empty-neighbor-set fallback -/

/-- **C2** (corrected). When the vector index returns zero results the handler
still returns a well-formed `AnalysisResult` (a designed fallback, not an
error): `estimated_price` is null, the category is the classifier's direct
zero-shot output (fine label and its coarse mapping), the brand confidence is
0.0 — but the overall confidence is the zero-shot category confidence rounded
to two decimals, **not** the 0.0 the original claim states. -/
theorem empty_neighbor_fallback (inp : AnalyzeInputs) (img : String)
    (himg : img ≠ "") (h : inp.results = []) :
    analyzeHandler img true inp = Except.ok (analyzeCore inp) ∧
    (analyzeCore inp).estimated_price = none ∧
    (analyzeCore inp).category =
      categoryMapping (category_names.getD (argmaxIdx inp.categorySims) "") ∧
    (analyzeCore inp).specific_category =
      category_names.getD (argmaxIdx inp.categorySims) "" ∧
    (analyzeCore inp).confidence =
      round2 (inp.categorySims.getD (argmaxIdx inp.categorySims) 0) ∧
    (analyzeCore inp).conf_brand = 0 ∧
    (analyzeCore inp).likely_brand = "" := by
  obtain ⟨g, cs, co, ps, bs, res⟩ := inp
  replace h : res = [] := h
  subst h
  refine ⟨?_, rfl, rfl, rfl, rfl, rfl, rfl⟩
  rw [analyzeHandler, if_neg himg, if_neg (by simp)]

/-- **C2** counterexample to the claim as stated: with zero index results and
a zero-shot category confidence of 0.5, the returned overall confidence is
0.5, not the 0.0 the claim specifies. -/
theorem empty_neighbor_confidence_counterexample :
    (analyzeCore ⟨Except.ok "", [1/2], [3/10], [1/5], [1/10], []⟩).estimated_price
      = none ∧
    (analyzeCore ⟨Except.ok "", [1/2], [3/10], [1/5], [1/10], []⟩).confidence
      = 1/2 ∧
    ((1 : ℚ)/2 ≠ 0) := by
  refine ⟨?_, ?_, by norm_num⟩
  · norm_num [analyzeCore, parseGpt, parseGptResponse, splitLines, splitLinesAux,
      trimStr, parseGptLine, argmaxIdx, argmaxAux, selectColors,
      sortDesc, insertDesc, List.enum, List.enumFrom]
  · norm_num [analyzeCore, parseGpt, parseGptResponse, splitLines, splitLinesAux,
      trimStr, parseGptLine, argmaxIdx, argmaxAux, round2, rhe, selectColors,
      sortDesc, insertDesc, List.enum, List.enumFrom]

/-- Witness for `empty_neighbor_fallback` at a concrete input. -/
theorem empty_neighbor_fallback_witness :
    (analyzeCore ⟨Except.ok "", [1/2], [3/10], [1/5], [1/10], []⟩).estimated_price
      = none :=
  (empty_neighbor_fallback ⟨Except.ok "", [1/2], [3/10], [1/5], [1/10], []⟩ "x"
    (by decide) rfl).2.1

/-! ## Claim C3 — zero-shot color selection -/

/-- The accumulating fold of the secondary-color loop is an append of the
margin-and-floor filter. -/
theorem colorFold_eq (top : Nat × ℚ) (l : List (Nat × ℚ)) :
    ∀ (acc1 : List String) (acc2 : List ℚ),
    (l.foldl
      (fun acc p =>
        if top.2 - p.2 < 2/100 ∧ p.2 > 24/100 then
          (acc.1 ++ [color_names.getD p.1 ""], acc.2 ++ [p.2])
        else acc)
      (acc1, acc2)) =
    (acc1 ++ ((l.filter (fun p => decide (top.2 - p.2 < 2/100 ∧ p.2 > 24/100))).map
        (fun p => color_names.getD p.1 "")),
      acc2 ++ ((l.filter (fun p => decide (top.2 - p.2 < 2/100 ∧ p.2 > 24/100))).map
        (fun p => p.2))) := by
  induction l with
  | nil => intro acc1 acc2; simp
  | cons x xs ih =>
      intro acc1 acc2
      simp only [List.foldl_cons, List.filter_cons]
      by_cases hx : top.2 - x.2 < 2/100 ∧ x.2 > 24/100
      · rw [if_pos hx, ih]
        simp [hx]
      · rw [if_neg hx, ih]
        simp [hx]

/-- **C3** (confirmed). Zero-shot color selection returns at most three
colors; the rank-1 color is always first; a rank-2/3 color appears exactly
when its similarity is within 0.02 of the rank-1 similarity (strictly, as the
code computes `top - conf < 0.02`) and strictly exceeds the 0.24 floor. The
two concrete scenarios of the claim are included: Black=0.30/Navy=0.29 yields
["Black", "Navy"], and a 0.50 top with the rest at 0.10 yields ["Black"]. -/
theorem zero_shot_color_selection :
    (∀ (sims : List ℚ) (top : Nat × ℚ) (rest : List (Nat × ℚ)),
      sortDesc sims.enum = top :: rest →
      (selectColors "" sims).1 =
        color_names.getD top.1 "" ::
          ((rest.take 2).filter
            (fun p => decide (top.2 - p.2 < 2/100 ∧ p.2 > 24/100))).map
            (fun p => color_names.getD p.1 "") ∧
      (selectColors "" sims).1.length ≤ 3) ∧
    (selectColors "" [3/10, 1/10, 1/20, 1/20, 1/20, 29/100, 1/20, 1/20, 1/20,
      1/20, 1/20, 1/20, 1/20]).1 = ["Black", "Navy"] ∧
    (selectColors "" [1/2, 1/10, 1/10, 1/10, 1/10, 1/10, 1/10, 1/10, 1/10,
      1/10, 1/10, 1/10, 1/10]).1 = ["Black"] := by
  refine ⟨?_, ?_, ?_⟩
  · intro sims top rest h
    have h1 : (selectColors "" sims).1 =
        color_names.getD top.1 "" ::
          ((rest.take 2).filter
            (fun p => decide (top.2 - p.2 < 2/100 ∧ p.2 > 24/100))).map
            (fun p => color_names.getD p.1 "") := by
      rw [selectColors, if_neg (by simp), h, List.take_succ_cons]
      dsimp only
      rw [colorFold_eq]
      simp
    refine ⟨h1, ?_⟩
    rw [h1]
    have h2 : ((rest.take 2).filter
        (fun p => decide (top.2 - p.2 < 2/100 ∧ p.2 > 24/100))).length ≤ 2 := by
      refine le_trans (List.length_filter_le _ _) ?_
      rw [List.length_take]
      exact min_le_left _ _
    simp only [List.length_cons, List.length_map]
    omega
  · norm_num [selectColors, sortDesc, insertDesc, List.enum, List.enumFrom,
      color_names]
  · norm_num [selectColors, sortDesc, insertDesc, List.enum, List.enumFrom,
      color_names]

/-- Witness for `zero_shot_color_selection` at a concrete two-color input. -/
theorem zero_shot_color_selection_witness :
    (selectColors "" [3/10, 29/100]).1 =
      color_names.getD 0 "" ::
        (([((1 : Nat), (29 : ℚ)/100)].take 2).filter
          (fun p => decide ((3 : ℚ)/10 - p.2 < 2/100 ∧ p.2 > 24/100))).map
          (fun p => color_names.getD p.1 "") :=
  (zero_shot_color_selection.1 [3/10, 29/100] (0, 3/10) [(1, 29/100)]
    (by norm_num [sortDesc, insertDesc, List.enum, List.enumFrom])).1

/-! ## Claim C4 — condition banding -/

/-- **C4** (confirmed). The condition estimate is a pure function of the top-1
neighbor's distance with strictly-less-than boundaries: `< 0.3` is
"excellent", `[0.3, 0.5)` is "good", `≥ 0.5` is "fair"; the boundary values
0.29/0.3/0.49/0.5 resolve accordingly, and in the pipeline the estimate is
exactly this function applied to the first result's distance. -/
theorem condition_banding (d : ℚ) :
    (d < 3/10 → conditionFromDistance d = "excellent") ∧
    (3/10 ≤ d → d < 5/10 → conditionFromDistance d = "good") ∧
    (5/10 ≤ d → conditionFromDistance d = "fair") ∧
    conditionFromDistance (29/100) = "excellent" ∧
    conditionFromDistance (3/10) = "good" ∧
    conditionFromDistance (49/100) = "good" ∧
    conditionFromDistance (1/2) = "fair" ∧
    (∀ (inp : AnalyzeInputs) (top : NeighborRow) (rest : List NeighborRow),
      inp.results = top :: rest →
      (analyzeCore inp).estimated_condition =
        conditionFromDistance (top.distance.getD 1)) := by
  refine ⟨?_, ?_, ?_, by norm_num [conditionFromDistance],
    by norm_num [conditionFromDistance], by norm_num [conditionFromDistance],
    by norm_num [conditionFromDistance], ?_⟩
  · intro h
    rw [conditionFromDistance, if_pos h]
  · intro h1 h2
    rw [conditionFromDistance, if_neg (not_lt.mpr h1), if_pos h2]
  · intro h
    rw [conditionFromDistance, if_neg (not_lt.mpr (le_trans (by norm_num) h)),
      if_neg (not_lt.mpr h)]
  · intro inp top rest h
    obtain ⟨g, cs, co, ps, bs, res⟩ := inp
    replace h : res = top :: rest := h
    subst h
    rfl

/-- Witness for `condition_banding` at distance 0.3 (boundary resolves to
"good"). -/
theorem condition_banding_witness :
    conditionFromDistance (3/10) = "good" :=
  (condition_banding (3/10)).2.1 (le_refl _) (by norm_num)

/-! ## Claim C7 — size estimation (code bug) -/

/-- **C7** (code_bug). With concatenated neighbor text "red", no size token
(`xs`, `s`, `m`, `l`, `xl`, `xxl`) occurs at all, yet the code returns "XS",
not the intended default "M": the guard `if size_counts:` tests the counts
dict, which is always non-empty, so `max` runs over all-zero counts and picks
the first key `"xs"`. The `else: "M"` branch of the source is unreachable. -/
theorem size_default_unreachable :
    countOcc "red" "xs" = 0 ∧ countOcc "red" "s" = 0 ∧ countOcc "red" "m" = 0 ∧
    countOcc "red" "l" = 0 ∧ countOcc "red" "xl" = 0 ∧
    countOcc "red" "xxl" = 0 ∧
    sizeEstimate "red" = "XS" ∧ ("XS" : String) ≠ "M" := by
  decide

/-! ## Claim C5 — price estimation -/

/-- **C5** (confirmed). The price estimate: none with zero samples; the simple
mean (rounded to two decimals) with 1–3 samples; the outlier-trimmed mean
(rounded) with more than 3 samples, falling back to the un-trimmed mean when
trimming empties the set. A sample is retained exactly when its squared
deviation from the mean is below nine sample variances, i.e. it is within 3
standard deviations. The last clause ties the function to the pipeline: the
analysis price is this function applied to the non-null neighbor prices. -/
theorem price_estimation (prices : List ℚ) :
    (prices = [] → estimatedPrice prices = none) ∧
    (prices ≠ [] → prices.length ≤ 3 →
      estimatedPrice prices = some (round2 (meanQ prices))) ∧
    (3 < prices.length → priceFilter prices ≠ [] →
      estimatedPrice prices = some (round2 (meanQ (priceFilter prices)))) ∧
    (3 < prices.length → priceFilter prices = [] →
      estimatedPrice prices = some (meanQ prices)) ∧
    (∀ p, p ∈ priceFilter prices ↔
      p ∈ prices ∧ (p - meanQ prices) ^ 2 < 9 * sampleVar prices) ∧
    (∀ (inp : AnalyzeInputs) (top : NeighborRow) (rest : List NeighborRow),
      inp.results = top :: rest →
      (analyzeCore inp).estimated_price =
        estimatedPrice (((top :: rest).filter (fun r => r.price.isSome)).map
          (fun r => r.price.getD 0))) := by
  refine ⟨?_, ?_, ?_, ?_, ?_, ?_⟩
  · intro h
    rw [estimatedPrice, if_pos h]
  · intro h hle
    rw [estimatedPrice, if_neg h, if_neg (by omega)]
  · intro h3 hf
    rw [estimatedPrice, if_neg (by rintro rfl; simp at h3), if_pos h3, if_pos hf]
  · intro h3 hf
    rw [estimatedPrice, if_neg (by rintro rfl; simp at h3), if_pos h3,
      if_neg (not_not_intro hf)]
  · intro p
    rw [priceFilter, List.mem_filter]
    simp
  · intro inp top rest h
    obtain ⟨g, cs, co, ps, bs, res⟩ := inp
    replace h : res = top :: rest := h
    subst h
    rfl

/-- Witness for `price_estimation` at a single-sample input. -/
theorem price_estimation_witness :
    estimatedPrice [(2 : ℚ)] = some (round2 (meanQ [(2 : ℚ)])) :=
  (price_estimation [(2 : ℚ)]).2.1 (by simp) (by simp)

/-! ## Claim C6 — price estimate within retained range -/

/-- **C6** counterexample to the claim as stated: with the single price sample
0.004, the retained set is [0.004] but the reported estimate is
round(0.004, 2) = 0.0, which lies strictly below the minimum of the retained
samples. -/
theorem price_range_rounding_counterexample :
    estimatedPrice [(1 : ℚ)/250] = some 0 ∧
    retainedPrices [(1 : ℚ)/250] = [(1 : ℚ)/250] ∧
    ¬ (minQ (retainedPrices [(1 : ℚ)/250]) ≤ 0 ∧
        (0 : ℚ) ≤ maxQ (retainedPrices [(1 : ℚ)/250])) := by
  refine ⟨?_, ?_, ?_⟩
  · norm_num [estimatedPrice, meanQ, round2, rhe]
  · norm_num [retainedPrices]
  · norm_num [retainedPrices, minQ]

/-- **C6** (corrected). Whenever the price estimate is non-null: if the
retained (post-outlier-filter) sample set is non-empty, the estimate lies
within its min/max **widened by the two-decimal rounding step 0.005** (the
un-rounded mean does lie within min/max, but rounding can move the reported
value past them, as the counterexample shows); in the fallback where trimming
retained nothing, the estimate is the un-trimmed mean and lies within the
min/max of the original samples. -/
theorem price_within_retained_range (prices : List ℚ) (v : ℚ)
    (h : estimatedPrice prices = some v) :
    (retainedPrices prices ≠ [] →
      minQ (retainedPrices prices) - 1/200 ≤ v ∧
      v ≤ maxQ (retainedPrices prices) + 1/200) ∧
    (retainedPrices prices = [] → minQ prices ≤ v ∧ v ≤ maxQ prices) := by
  by_cases h0 : prices = []
  · rw [estimatedPrice, if_pos h0] at h
    exact Option.noConfusion h
  · by_cases h3 : 3 < prices.length
    · by_cases hf : priceFilter prices = []
      · rw [estimatedPrice, if_neg h0, if_pos h3, if_neg (not_not_intro hf)] at h
        have hv : v = meanQ prices := (Option.some.inj h).symm
        subst hv
        constructor
        · intro hne
          rw [retainedPrices, if_pos h3] at hne
          exact absurd hf hne
        · intro _
          exact meanQ_mem_range h0
      · rw [estimatedPrice, if_neg h0, if_pos h3, if_pos hf] at h
        have hv : v = round2 (meanQ (priceFilter prices)) := (Option.some.inj h).symm
        subst hv
        constructor
        · intro _
          have hr := meanQ_mem_range hf
          have hb := round2_bounds (meanQ (priceFilter prices))
          rw [retainedPrices, if_pos h3]
          exact ⟨by linarith [hr.1, hb.1], by linarith [hr.2, hb.2]⟩
        · intro h'
          rw [retainedPrices, if_pos h3] at h'
          exact absurd h' hf
    · rw [estimatedPrice, if_neg h0, if_neg h3] at h
      have hv : v = round2 (meanQ prices) := (Option.some.inj h).symm
      subst hv
      constructor
      · intro _
        have hr := meanQ_mem_range h0
        have hb := round2_bounds (meanQ prices)
        rw [retainedPrices, if_neg h3]
        exact ⟨by linarith [hr.1, hb.1], by linarith [hr.2, hb.2]⟩
      · intro h'
        rw [retainedPrices, if_neg h3] at h'
        exact absurd h' h0

/-- Witness for `price_within_retained_range` at the sample list [1, 2]. -/
theorem price_within_retained_range_witness :
    retainedPrices [(1 : ℚ), 2] ≠ [] ∧
    minQ (retainedPrices [(1 : ℚ), 2]) - 1/200 ≤ round2 (meanQ [(1 : ℚ), 2]) ∧
    round2 (meanQ [(1 : ℚ), 2]) ≤ maxQ (retainedPrices [(1 : ℚ), 2]) + 1/200 := by
  have h := price_within_retained_range [(1 : ℚ), 2] (round2 (meanQ [(1 : ℚ), 2]))
    (by rw [estimatedPrice, if_neg (by simp), if_neg (by simp)])
  have hne : retainedPrices [(1 : ℚ), 2] ≠ [] := by
    rw [retainedPrices, if_neg (by simp)]
    simp
  exact ⟨hne, (h.1 hne).1, (h.1 hne).2⟩

/-! ## Claim C8 — GPT-4 color override -/

/-- **C8** (confirmed). When the vision-model color read yields a non-empty
color string, the selection is exactly that one color title-cased with
confidence 0.95; the result does not depend on the zero-shot similarities at
all; and in the pipeline the response reports exactly that single color with
rounded confidence 0.95 (in both the empty-neighbor and the main branch). -/
theorem gpt_color_override (gptColor : String) (sims sims2 : List ℚ)
    (inp : AnalyzeInputs) (h : gptColor ≠ "")
    (hc : (parseGpt inp.gptOutcome).2 = gptColor) :
    selectColors gptColor sims = ([titleCase gptColor], [95/100]) ∧
    selectColors gptColor sims = selectColors gptColor sims2 ∧
    (analyzeCore inp).colors = [titleCase gptColor] ∧
    (analyzeCore inp).conf_colors = [95/100] := by
  have hsel : ∀ s : List ℚ,
      selectColors gptColor s = ([titleCase gptColor], [95/100]) := by
    intro s
    rw [selectColors, if_pos h]
  obtain ⟨g, cs, co, ps, bs, res⟩ := inp
  replace hc : (parseGpt g).2 = gptColor := hc
  have hcol : (analyzeCore ⟨g, cs, co, ps, bs, res⟩).colors
        = (selectColors (parseGpt g).2 co).1.take 3 ∧
      (analyzeCore ⟨g, cs, co, ps, bs, res⟩).conf_colors
        = (selectColors (parseGpt g).2 co).2.map round2 := by
    cases res with
    | nil => exact ⟨rfl, rfl⟩
    | cons r rs => exact ⟨rfl, rfl⟩
  refine ⟨hsel sims, by rw [hsel sims, hsel sims2], ?_, ?_⟩
  · rw [hcol.1, hc, hsel co]
    simp
  · rw [hcol.2, hc, hsel co]
    norm_num [round2, rhe]

/-- Witness for `gpt_color_override`: a parsed "COLOR: navy blue" line yields
exactly the single title-cased color. -/
theorem gpt_color_override_witness :
    (analyzeCore ⟨Except.ok "COLOR: navy blue", [], [], [], [], []⟩).colors =
      [titleCase "navy blue"] :=
  (gpt_color_override "navy blue" [] []
    ⟨Except.ok "COLOR: navy blue", [], [], [], [], []⟩
    (by decide) (by decide)).2.2.1

/-! ## Claim C9 — input validation -/

/-- **C9** (confirmed). A combined-mode search with neither (stripped) query
text nor image data is rejected with status 400, for every embedding provider
and vector index (so before either is consulted); a successful result implies
at least one input was present; a non-empty but undecodable image is rejected
with 400; and the analyze endpoint rejects a missing image and an undecodable
image with 400. -/
theorem input_validation (embed : Bool → Option String → Except String (List ℚ))
    (searchIdx : List ℚ → Except String (List NeighborRow))
    (query imageB64 : String) (decodeOk : Bool) (inp : AnalyzeInputs) :
    (trimStr query = "" → imageB64 = "" →
      searchCombinedM embed searchIdx query imageB64 decodeOk =
        Except.error
          (400, "At least one of \x27query\x27 or \x27image_base64\x27 is required")) ∧
    (∀ rows,
      searchCombinedM embed searchIdx query imageB64 decodeOk = Except.ok rows →
      trimStr query ≠ "" ∨ imageB64 ≠ "") ∧
    (imageB64 ≠ "" → decodeOk = false →
      searchCombinedM embed searchIdx query imageB64 decodeOk =
        Except.error (400, "Invalid base64 image data")) ∧
    (imageB64 = "" →
      analyzeHandler imageB64 decodeOk inp = Except.error (400, "Image is required")) ∧
    (imageB64 ≠ "" → decodeOk = false →
      analyzeHandler imageB64 decodeOk inp =
        Except.error (400, "Invalid base64 image data")) := by
  refine ⟨?_, ?_, ?_, ?_, ?_⟩
  · intro h1 h2
    simp only [searchCombinedM]
    rw [if_pos ⟨h1, h2⟩]
  · intro rows hok
    by_contra hcon
    push_neg at hcon
    simp only [searchCombinedM] at hok
    rw [if_pos ⟨hcon.1, hcon.2⟩] at hok
    exact Except.noConfusion hok
  · intro h1 h2
    simp only [searchCombinedM]
    rw [if_neg (by simp [h1]), if_pos ⟨h1, h2⟩]
  · intro h1
    rw [analyzeHandler, if_pos h1]
  · intro h1 h2
    rw [analyzeHandler, if_neg h1, if_pos h2]

/-- Witness for `input_validation`: a whitespace-only query with no image is
rejected with 400 regardless of the (concrete trivial) collaborators. -/
theorem input_validation_witness :
    searchCombinedM (fun _ _ => Except.ok []) (fun _ => Except.ok []) " " "" true =
      Except.error
        (400, "At least one of \x27query\x27 or \x27image_base64\x27 is required") :=
  (input_validation (fun _ _ => Except.ok []) (fun _ => Except.ok []) " " "" true
    ⟨Except.ok "", [], [], [], [], []⟩).1 (by decide) rfl

/-! ## Claim C10 — vision-model read fails open -/

/-- **C10** (confirmed). When the GPT-4 vision read errors, the caught
exception leaves both the detected brand text and the detected color empty;
the entire analysis is identical to one with an absent signal (an empty
response), and the request still succeeds — the collaborator error is never
propagated as a failure of the analysis request. -/
theorem gpt_failure_fail_open (e : String) (inp : AnalyzeInputs) (img : String)
    (hg : inp.gptOutcome = Except.error e) (himg : img ≠ "") :
    parseGpt inp.gptOutcome = ("", "") ∧
    analyzeCore inp = analyzeCore { inp with gptOutcome := Except.ok "" } ∧
    analyzeHandler img true inp = Except.ok (analyzeCore inp) := by
  obtain ⟨g, cs, co, ps, bs, res⟩ := inp
  replace hg : g = Except.error e := hg
  subst hg
  have h2 : parseGpt (Except.ok "") = ("", "") := by decide
  refine ⟨rfl, ?_, ?_⟩
  · show analyzeCore ⟨Except.error e, cs, co, ps, bs, res⟩ =
      analyzeCore ⟨Except.ok "", cs, co, ps, bs, res⟩
    unfold analyzeCore
    rw [show parseGpt (Except.error e) = ("", "") from rfl, h2]
  · rw [analyzeHandler, if_neg himg, if_neg (by simp)]

/-- Witness for `gpt_failure_fail_open` at a concrete failing read. -/
theorem gpt_failure_fail_open_witness :
    analyzeHandler "x" true ⟨Except.error "boom", [], [], [], [], []⟩ =
      Except.ok (analyzeCore ⟨Except.error "boom", [], [], [], [], []⟩) :=
  (gpt_failure_fail_open "boom" ⟨Except.error "boom", [], [], [], [], []⟩ "x" rfl
    (by decide)).2.2

end Modaics
